import Mathlib

/-!
Verification development for the csm-ui repository.

This file gives a shallow embedding, in Lean, of the state and operations of
the csm-ui application — the context/session data model and its mutations
(`createContext`, `loadSession`, segment appension), the generation request
pipeline (the `/api/generate` server handler plus the client `generateSpeech`
flow), the `/api/check-audio` artifact validation handler, the
`/api/audio-proxy` filename sanitization, and the client-side audio artifact
cache (`fetchAudioBuffer`) — and proves properties of that embedding.

External effects (HTTP fetches, `decodeAudioData`, the synthesis backend
process, the filesystem) are modelled as explicit environment records passed
to the embedded functions; everything else follows the source control flow
line by line.  File contents and decoded channels are modelled as lists of
machine integers; the two deterministic synthetic placeholder waveforms
produced by `fetchAudioBuffer` are represented by their generating
parameters (frequency in Hz and duration in seconds), since each is computed
by a fixed, deterministic sine formula over the sample index.
-/

set_option autoImplicit false

namespace CsmUi

/-- Decoded audio sample data as held in the client's in-memory audio cache.
`decoded ch` is the first-channel data returned by `decodeAudioData`;
`placeholder f d` is the deterministic synthetic waveform of frequency `f` Hz
and duration `d` seconds generated at 24000 Hz.  `placeholder 440 5` stands
for the amplitude-modulated 440 Hz sine built in the existence-probe branch
of `fetchAudioBuffer` (tts-interface.tsx lines 530-546), and
`placeholder 220 3` for the 3-second 220 Hz sine of the last-resort branch
(lines 552-560).  Both generating loops are pure functions of the sample
index, so equal parameters give bit-identical `Float32Array`s. -/
inductive AudioData where
  | decoded (channel : List Int)
  | placeholder (freqHz : Nat) (durationSec : Nat)
  deriving DecidableEq, Repr

/-- Number of samples held by a piece of audio data.  Placeholders are
generated at the fixed CSM sample rate of 24000 Hz. -/
def sampleCount : AudioData → Nat
  | .decoded ch => ch.length
  | .placeholder _ d => 24000 * d

/-- The module-level `audioCache : Record<string, Float32Array>` of
tts-interface.tsx line 57, keyed by the artifact reference (URL) string. -/
abbrev AudioCache := List (String × AudioData)

/-- `audioCache[url]` lookup. -/
def cacheLookup : AudioCache → String → Option AudioData
  | [], _ => none
  | (k, v) :: rest, url => if k = url then some v else cacheLookup rest url

/-- Environment seen by one `fetchAudioBuffer` attempt: the outcome of the
direct-URL fetch (`none` = network error or non-ok status, `some bytes` =
the response body), likewise for the proxied fetch, the behaviour of
`decodeAudioData` on a byte string (deterministic per byte string), and
whether the `HEAD` existence probe succeeds with an ok status (`false`
covers both a thrown fetch and a non-ok response, which the source treats
alike by falling through). -/
structure FetchEnv where
  direct : Option (List Nat)
  proxy : Option (List Nat)
  decode : List Nat → Option (List Int)
  headOk : Bool

/-- The ways the fallible body of `fetchAudioBuffer` (its outer `try` block,
tts-interface.tsx lines 436-518) can throw. -/
inductive FetchError where
  | bothPathsFailed
  | emptyFile
  | decodeFailed
  deriving DecidableEq, Repr

/-- The outer `try` block of `fetchAudioBuffer` after a cache miss: fetch the
direct URL, fall back to the proxy URL, throw if both fail, throw on an
empty body, decode, throw if decoding fails (lines 443-507). -/
def fetchAttempt (env : FetchEnv) : Except FetchError (List Int) :=
  match (match env.direct with | some b => some b | none => env.proxy) with
  | none => .error .bothPathsFailed
  | some bytes =>
    if bytes = [] then .error .emptyFile
    else
      match env.decode bytes with
      | some ch => .ok ch
      | none => .error .decodeFailed

/-- Result of a `fetchAudioBuffer` call: the returned sample data, the cache
afterwards, and whether any I/O (fetch / probe) was attempted. -/
structure FetchResult where
  data : AudioData
  cache : AudioCache
  didIo : Bool
  deriving DecidableEq, Repr

/-- `fetchAudioBuffer` (tts-interface.tsx lines 435-562).  A cache hit
returns immediately with no I/O.  On a miss, the fallible fetch+decode body
runs; success caches and returns the decoded channel; any thrown error lands
in the `catch` block, which probes the file with a `HEAD` request: if the
probe succeeds the 5-second 440 Hz placeholder is cached and returned
(lines 526-546), otherwise the last-resort 3-second 220 Hz placeholder is
returned without being written to the cache (lines 552-560). -/
def fetchAudioBuffer (env : FetchEnv) (cache : AudioCache) (url : String) :
    FetchResult :=
  match cacheLookup cache url with
  | some d => ⟨d, cache, false⟩
  | none =>
    match fetchAttempt env with
    | .ok ch => ⟨.decoded ch, (url, .decoded ch) :: cache, true⟩
    | .error _ =>
      if env.headOk then
        ⟨.placeholder 440 5, (url, AudioData.placeholder 440 5) :: cache, true⟩
      else
        ⟨.placeholder 220 3, cache, true⟩

/-! ## Data model: segments, contexts, sessions (tts-interface.tsx lines 17-54) -/

/-- A speech segment: speaker id, text, optional decoded audio (held only in
memory, never persisted) and optional artifact reference path. -/
structure Segment where
  speaker : Nat
  text : String
  audio : Option AudioData
  audioPath : Option String
  deriving DecidableEq, Repr

/-- A named context: an ordered list of segments. -/
structure ContextFile where
  name : String
  segments : List Segment
  deriving DecidableEq, Repr

/-- A saved snapshot of generation settings (`SavedSession`,
tts-interface.tsx lines 44-54).  `temperature` is a decimal slider value,
modelled as a rational. -/
structure SavedSession where
  id : String
  name : String
  inputText : String
  selectedSpeaker : Nat
  maxAudioLength : Nat
  temperature : Rat
  topK : Nat
  contextName : Option String
  createdAt : Nat
  deriving DecidableEq, Repr

/-- The React component state of `TTSInterface` that the embedded operations
read and write.  Text-input boxes whose values are passed explicitly to the
operations (the new-context name field, the session name field) are not
duplicated here. -/
structure AppState where
  inputText : String
  selectedSpeaker : Nat
  maxAudioLength : Nat
  temperature : Rat
  topK : Nat
  contexts : List ContextFile
  activeContext : Option ContextFile
  currentSessionName : Option String
  savedSessions : List SavedSession
  isProcessing : Bool
  audioUrl : Option String
  audioData : Option AudioData
  audioCache : AudioCache
  generationProgress : Nat
  deriving DecidableEq, Repr

/-- `contexts.some(ctx => ctx.name === name)`. -/
def hasContextName : List ContextFile → String → Bool
  | [], _ => false
  | ctx :: rest, n => if ctx.name = n then true else hasContextName rest n

/-- `contexts.find(ctx => ctx.name === name)`. -/
def findContext : List ContextFile → String → Option ContextFile
  | [], _ => none
  | ctx :: rest, n => if ctx.name = n then some ctx else findContext rest n

/-- `contexts.map(ctx => ctx.name === name ? {...ctx, segments: [...ctx.segments, seg]} : ctx)`,
the segment-appension pattern used by `generateSpeech` (lines 685-693) and
`handleAddToContext` (lines 851-859). -/
def appendSegmentTo (n : String) (seg : Segment) (l : List ContextFile) :
    List ContextFile :=
  l.map fun ctx =>
    if ctx.name = n then { ctx with segments := ctx.segments ++ [seg] } else ctx

/-! ## Context creation (tts-interface.tsx lines 782-803) -/

/-- Outcome of `createContext`: the empty-name validation toast, the
duplicate-name error toast, or successful creation. -/
inductive CreateResult where
  | emptyNameError
  | duplicateNameError
  | created
  deriving DecidableEq, Repr

/-- `createContext` (lines 782-803).  `name` is the current value of the
new-context-name input.  An empty name is rejected first; then a duplicate
name; otherwise an empty context is appended and becomes the active
context (the source also clears the input box, which is not part of
`AppState` here). -/
def createContext (name : String) (st : AppState) : AppState × CreateResult :=
  if name = "" then (st, .emptyNameError)
  else if hasContextName st.contexts name then (st, .duplicateNameError)
  else
    ({ st with
        contexts := st.contexts ++ [⟨name, []⟩],
        activeContext := some ⟨name, []⟩ }, .created)

/-! ## Session loading (tts-interface.tsx lines 225-243) -/

/-- `loadSession` (lines 225-243): restore all settings, record the session
name, then re-resolve `contextName` against the live context list; a `null`
or empty context name, or a name with no matching context, leaves the active
context untouched.  The function has no failure outcome, mirroring the
source, which raises no error on a dangling reference. -/
def loadSession (session : SavedSession) (st : AppState) : AppState :=
  let st1 := { st with
    inputText := session.inputText,
    selectedSpeaker := session.selectedSpeaker,
    maxAudioLength := session.maxAudioLength,
    temperature := session.temperature,
    topK := session.topK,
    currentSessionName := some session.name }
  match session.contextName with
  | none => st1
  | some n =>
    if n = "" then st1
    else
      match findContext st1.contexts n with
      | some ctx => { st1 with activeContext := some ctx }
      | none => st1

/-! ## The `/api/generate` server handler (audio-proxy.ts source region,
second handler, lines 74-245 of that file) -/

/-- One invocation of the synthesis backend process and its observable
outcome: whether `exec` reported an error (`exitOk = false` means the
callback received a non-null `error`), the captured `stderr` and `stdout`
text, whether `stdout` contains the substring `"Warning:"`, the bytes of the
output artifact file on disk (`none` when the file was not created), and the
generated artifact id. -/
structure BackendRun where
  exitOk : Bool
  stderr : String
  stdout : String
  stdoutHasWarning : Bool
  artifact : Option (List Nat)
  audioId : String

/-- Response of the `/api/generate` handler as seen by the client:
a 200 payload with the audio URL and optional warnings, or a non-ok
status whose JSON carries an error message. -/
inductive ApiResponse where
  | ok (audioUrl : String) (warnings : Option String)
  | error (msg : String)
  deriving DecidableEq, Repr

/-- The generic warning message used when `stderr` is empty in the
error-but-artifact branch (`stderr || "Warning encountered..."`). -/
def genericWarning : String := "Warning encountered but audio generated successfully"

/-- The `/api/generate` handler (lines 74-245 of the API source).  Missing
text is a 400.  If `exec` reported an error but the output file exists and
is non-empty, the handler still returns 200 with the diagnostics attached as
warnings (lines 176-195); otherwise the error is a 500.  On a clean exit the
handler rejects a missing (lines 203-206) or empty (lines 209-213) output
file with a 500, and otherwise returns 200 with warnings present exactly
when `stdout` contains `"Warning:"` or `stderr` is non-empty
(`stderr || stdout`, line 218). -/
def generateHandler (run : BackendRun) (text : String) : ApiResponse :=
  if text = "" then .error "Missing required parameters"
  else if run.exitOk then
    match run.artifact with
    | none => .error "Output file was not created"
    | some bytes =>
      if bytes.length = 0 then .error "Generated audio file is empty"
      else
        .ok ("/audio/" ++ run.audioId ++ ".wav")
          (if run.stdoutHasWarning ∨ run.stderr ≠ "" then
            some (if run.stderr = "" then run.stdout else run.stderr)
          else none)
  else
    match run.artifact with
    | some bytes =>
      if 0 < bytes.length then
        .ok ("/audio/" ++ run.audioId ++ ".wav")
          (some (if run.stderr = "" then genericWarning else run.stderr))
      else .error "Failed to generate audio"
    | none => .error "Failed to generate audio"

/-! ## The `/api/check-audio` handler (first handler of the unnamed API
source file, lines 5-96) -/

/-- JSON fields of the check-audio response that the client inspects:
`exists` (modelled as `found`; a 404 body has no such field, which the
client reads as falsy), `isReadable` (`bytesRead > 0`), and
`wavInfo.isValidWav` (present only when a full 44-byte header was read). -/
structure CheckAudioResult where
  found : Bool
  isReadable : Bool
  isValidWav : Option Bool
  deriving DecidableEq, Repr

/-- ASCII bytes of `"RIFF"`. -/
def riffMagic : List Nat := [82, 73, 70, 70]

/-- ASCII bytes of `"WAVE"`. -/
def waveMagic : List Nat := [87, 65, 86, 69]

/-- The `/api/check-audio` handler over the artifact file's bytes: a missing
file is a 404 (no `exists`/`isReadable` fields, hence both falsy for the
client); otherwise up to 44 header bytes are read, `isReadable` is
`bytesRead > 0`, and when all 44 were read the container signature check
compares bytes 0-3 with `"RIFF"` and bytes 8-11 with `"WAVE"`. -/
def checkAudioHandler (artifact : Option (List Nat)) : CheckAudioResult :=
  match artifact with
  | none => ⟨false, false, none⟩
  | some bytes =>
    let bytesRead := min 44 bytes.length
    ⟨true, decide (0 < bytesRead),
      if bytesRead = 44 then
        some (decide (bytes.take 4 = riffMagic ∧ (bytes.drop 8).take 4 = waveMagic))
      else none⟩

/-! ## The client generation flow (`generateSpeech`, tts-interface.tsx
lines 565-713) -/

/-- External world for one `generateSpeech` call: the backend invocation
made by `/api/generate`, and the fetch/decode environment seen by the
visualization fetch.  The `/api/check-audio` response is derived from the
same artifact bytes the backend wrote. -/
structure GenEnv where
  backend : BackendRun
  fetchEnv : FetchEnv

/-- Outcome of a `generateSpeech` call: the empty-text validation toast
(line 567), the `catch` branch with the thrown message (lines 703-705), or
completion, recording whether the warnings toast fired (line 620) and
whether the check-audio validation toast-error fired (line 642). -/
inductive GenOutcome where
  | validationError
  | requestFailed (msg : String)
  | completed (warned : Bool) (checkFailed : Bool)
  deriving DecidableEq, Repr

/-- JavaScript `String.prototype.trim()`: strip leading and trailing
whitespace. -/
def jsTrim (s : String) : String :=
  ⟨((s.data.dropWhile Char.isWhitespace).reverse.dropWhile
      Char.isWhitespace).reverse⟩

/-- `generateSpeech` (lines 565-713).  Empty trimmed input text aborts
before any request.  Otherwise the session name is cleared and
`/api/generate` is called; a non-ok response throws, landing in `catch`
with `isProcessing` reset and the progress bar zeroed.  On success the
audio URL is stored, the check-audio validation result is only reported
(`checkFailed` — nothing is thrown and nothing downstream consults it),
the artifact is resolved through `fetchAudioBuffer` for visualization, and,
when an active context exists, a new segment `{speaker, text, audio: null,
audioPath: url}` is appended to every stored context bearing the active
context's name, with the active-context view refreshed from the updated
list. -/
def generateSpeech (env : GenEnv) (st : AppState) : AppState × GenOutcome :=
  if jsTrim st.inputText = "" then (st, .validationError)
  else
    let st1 := { st with
      isProcessing := true, generationProgress := 20, currentSessionName := none }
    match generateHandler env.backend st.inputText with
    | .error msg =>
      ({ st1 with isProcessing := false, generationProgress := 0 },
        .requestFailed msg)
    | .ok url warnings =>
      let check := checkAudioHandler env.backend.artifact
      let checkFailed := !(check.found && check.isReadable)
      let fr := fetchAudioBuffer env.fetchEnv st1.audioCache url
      let st2 := { st1 with
        audioUrl := some url,
        audioData := some fr.data,
        audioCache := fr.cache,
        generationProgress := 100 }
      let st3 :=
        match st2.activeContext with
        | none => st2
        | some active =>
          let seg : Segment := ⟨st.selectedSpeaker, st.inputText, none, some url⟩
          let newContexts := appendSegmentTo active.name seg st2.contexts
          { st2 with
            contexts := newContexts,
            activeContext :=
              match findContext newContexts active.name with
              | some c => some c
              | none => st2.activeContext }
      ({ st3 with isProcessing := false }, .completed warnings.isSome checkFailed)

/-- Outcome of pressing the Generate button. -/
inductive SubmitOutcome where
  | busy
  | ran (o : GenOutcome)
  deriving DecidableEq, Repr

/-- The Generate button (tts-interface.tsx lines 1058-1064):
`disabled={isProcessing}` means that while a generation request is in
flight a submission invokes nothing at all — no queueing, no cancellation,
no state change; this inert click is modelled as the `busy` outcome.
Otherwise the click runs `generateSpeech`. -/
def submitGenerate (env : GenEnv) (st : AppState) : AppState × SubmitOutcome :=
  if st.isProcessing then (st, .busy)
  else
    let r := generateSpeech env st
    (r.1, .ran r.2)

/-! ## The visualization branch after generation (tts-interface.tsx
lines 650-672) -/

/-- Observable outcome of the visualization stage: the final progress value,
the visualization data set (if any), how many retries of the resolution
step were attempted, and the scheduled delay before the retry. -/
structure VisOutcome where
  progress : Nat
  audioData : Option AudioData
  retryAttempts : Nat
  retryDelayMs : Nat
  deriving DecidableEq, Repr

/-- The branch on the visualization fetch result (lines 654-672), with the
two `fetchAudioBuffer` call results abstracted as inputs.  A truthy first
result is used directly with no retry; a falsy first result still drives
the progress bar to 100 and schedules exactly one retry via
`setTimeout(..., 1000)`, whose result is used if truthy; nothing further is
attempted after that retry. -/
def visualizationStage (firstResult retryResult : Option AudioData) :
    VisOutcome :=
  match firstResult with
  | some b => ⟨100, some b, 0, 0⟩
  | none =>
    match retryResult with
    | some b => ⟨100, some b, 1, 1000⟩
    | none => ⟨100, none, 1, 1000⟩

/-! ## The `/api/audio-proxy` filename sanitization (audio-proxy.ts
lines 13-35) -/

/-- Node's POSIX `path.basename`: ignore trailing separators, then take the
final path segment (everything after the last `/`). -/
def basename (s : String) : String :=
  ⟨(((s.data.reverse.dropWhile (fun c => c == '/')).takeWhile
      (fun c => c != '/')).reverse)⟩

/-- The audio directory `path.join(projectRoot, 'public', 'audio')`, as a
segment list under an abstract project root. -/
def audioDirSegs (projRoot : List String) : List String :=
  projRoot ++ ["public", "audio"]

/-- `path.join(dir, b)` for a single extra segment `b` containing no
separator: `path.join` normalizes the result, so `""` and `"."` leave the
directory unchanged and `".."` resolves to the parent directory; any other
segment is appended. -/
def joinSegment (dir : List String) (b : String) : List String :=
  if b = "" ∨ b = "." then dir
  else if b = ".." then dir.dropLast
  else dir ++ [b]

/-- The file path resolved by the `/api/audio-proxy` handler for a given
`filename` query value (lines 21-27): `path.join(audioDir,
path.basename(filename))`. -/
def resolveProxyPath (projRoot : List String) (filename : String) :
    List String :=
  joinSegment (audioDirSegs projRoot) (basename filename)

/-- Whether a resolved path lies within (or is) the audio directory:
the audio directory's segments are a prefix of the path's. -/
def withinAudioDir (projRoot : List String) (p : List String) : Bool :=
  decide (audioDirSegs projRoot = p.take (audioDirSegs projRoot).length)

/-! ## Concrete fixtures used by witnesses and counterexamples -/

/-- A fetch environment where the direct fetch, the proxy fetch and the
`HEAD` existence probe all fail. -/
def envAllFail : FetchEnv := ⟨none, none, fun _ => none, false⟩

/-- A fetch environment where the direct fetch succeeds with a small body
that decodes to the channel `[7]`. -/
def envGood : FetchEnv := ⟨some [1, 2, 3], none, fun _ => some [7], true⟩

/-- An empty context named `"A"`. -/
def egContext : ContextFile := ⟨"A", []⟩

/-- A small component state with one stored context `"A"`, which is
active. -/
def egState : AppState where
  inputText := "Hello there"
  selectedSpeaker := 0
  maxAudioLength := 10000
  temperature := 9 / 10
  topK := 50
  contexts := [egContext]
  activeContext := some egContext
  currentSessionName := none
  savedSessions := []
  isProcessing := false
  audioUrl := none
  audioData := none
  audioCache := []
  generationProgress := 0

/-- `egState` with a generation request in flight. -/
def egStateBusy : AppState := { egState with isProcessing := true }

/-- A backend invocation that exits cleanly but writes 100 bytes of zeros:
the artifact exists, is non-empty, and does not begin with the `RIFF`/`WAVE`
container signature. -/
def backendBadWav : BackendRun :=
  ⟨true, "", "", false, some (List.replicate 100 0), "bad1"⟩

/-- Generation environment around `backendBadWav`. -/
def envBadWav : GenEnv := ⟨backendBadWav, envAllFail⟩

/-- A backend invocation that exits cleanly but never creates the output
file. -/
def backendMissing : BackendRun := ⟨true, "", "", false, none, "m1"⟩

/-- Generation environment around `backendMissing`. -/
def envMissing : GenEnv := ⟨backendMissing, envAllFail⟩

/-- A backend invocation that exits non-zero with diagnostics on `stderr`,
yet leaves a small non-empty artifact on disk. -/
def backendWarn : BackendRun := ⟨false, "boom", "", false, some riffMagic, "abc123"⟩

/-- Generation environment around `backendWarn`. -/
def envWarn : GenEnv := ⟨backendWarn, envAllFail⟩

/-- A saved session whose `contextName` points at a context that no longer
exists in `egState`. -/
def egSession : SavedSession :=
  ⟨"1", "S1", "saved text", 1, 12000, 1 / 2, 40, some "Deleted", 0⟩

/-! ## Helper lemmas -/

/-- A string whose trimmed form is non-empty is itself non-empty. -/
theorem ne_empty_of_trim_ne_empty {s : String} (h : jsTrim s ≠ "") : s ≠ "" := by
  intro he
  apply h
  rw [he]
  decide

/-- Looking up the key just written at the head of the cache. -/
theorem cacheLookup_cons_self (c : AudioCache) (url : String) (d : AudioData) :
    cacheLookup ((url, d) :: c) url = some d := by
  simp [cacheLookup]

/-! ## C1: context creation -/

/-- C1 (amended): for every store state and every NON-EMPTY name,
`createContext` with a name that already names a context fails with the
duplicate-name error and leaves the whole state — context collection,
every context's segments, and the active-context pointer — unchanged;
with a fresh non-empty name it appends an empty context and makes it the
active context. -/
theorem createContext_nonempty_name_spec (st : AppState) (name : String)
    (hne : name ≠ "") :
    (hasContextName st.contexts name = true →
      createContext name st = (st, CreateResult.duplicateNameError)) ∧
    (hasContextName st.contexts name = false →
      createContext name st =
        ({ st with contexts := st.contexts ++ [⟨name, []⟩],
                   activeContext := some ⟨name, []⟩ }, CreateResult.created)) := by
  constructor
  · intro h
    simp [createContext, hne, h]
  · intro h
    simp [createContext, hne, h]

/-- C1 counterexample: in `egState` no context is named `""`, so `""` is a
fresh name, yet `createContext ""` performs the empty-name validation
rejection instead of creating and activating an empty context — the state
is returned untouched. -/
theorem createContext_fresh_empty_name_not_created :
    hasContextName egState.contexts "" = false ∧
    createContext "" egState = (egState, CreateResult.emptyNameError) := by
  exact ⟨rfl, rfl⟩

/-- Witness for C1: with the concrete store of `egState`, creating `"A"`
(which exists) is rejected as a duplicate with the state unchanged, and
creating `"B"` (fresh) appends an empty context `"B"` and activates it. -/
theorem createContext_nonempty_name_spec_witness :
    createContext "A" egState = (egState, CreateResult.duplicateNameError) ∧
    createContext "B" egState =
      ({ egState with contexts := egState.contexts ++ [⟨"B", []⟩],
                      activeContext := some ⟨"B", []⟩ }, CreateResult.created) :=
  ⟨(createContext_nonempty_name_spec egState "A" (by decide)).1 (by decide),
   (createContext_nonempty_name_spec egState "B" (by decide)).2 (by decide)⟩

/-! ## C6: loading a session with a dangling context reference -/

/-- C6: loading a session whose `contextName` no longer names a stored
context restores every generation setting (text, speaker, max audio length,
temperature, topK) exactly as saved, leaves the active-context pointer and
the context collection unchanged, and has no error outcome (`loadSession`
is a total state transition with no failure case, mirroring the source). -/
theorem loadSession_dangling_restores_settings (session : SavedSession)
    (st : AppState) (n : String)
    (hname : session.contextName = some n)
    (hdangling : findContext st.contexts n = none) :
    loadSession session st = { st with
      inputText := session.inputText,
      selectedSpeaker := session.selectedSpeaker,
      maxAudioLength := session.maxAudioLength,
      temperature := session.temperature,
      topK := session.topK,
      currentSessionName := some session.name } ∧
    (loadSession session st).activeContext = st.activeContext ∧
    (loadSession session st).contexts = st.contexts := by
  have hmain : loadSession session st = { st with
      inputText := session.inputText,
      selectedSpeaker := session.selectedSpeaker,
      maxAudioLength := session.maxAudioLength,
      temperature := session.temperature,
      topK := session.topK,
      currentSessionName := some session.name } := by
    unfold loadSession
    rw [hname]
    by_cases h : n = ""
    · simp [h]
    · simp [h, hdangling]
  exact ⟨hmain, by rw [hmain], by rw [hmain]⟩

/-- Witness for C6: loading `egSession` (whose `contextName` is
`"Deleted"`, absent from `egState`) leaves the active context and the
context list of `egState` unchanged. -/
theorem loadSession_dangling_witness :
    (loadSession egSession egState).activeContext = egState.activeContext ∧
    (loadSession egSession egState).contexts = egState.contexts :=
  ⟨(loadSession_dangling_restores_settings egSession egState "Deleted" rfl
      (by decide)).2.1,
   (loadSession_dangling_restores_settings egSession egState "Deleted" rfl
      (by decide)).2.2⟩

/-! ## C7: one generation request in flight at a time -/

/-- C7: while a generation request is in flight (`isProcessing`), a new
submission through the Generate button is rejected as busy: the click is
inert, so nothing is queued, the state — including the in-flight
`isProcessing` flag and every context — is exactly unchanged, and no
context mutation occurs. -/
theorem submitGenerate_busy_rejected (env : GenEnv) (st : AppState)
    (hbusy : st.isProcessing = true) :
    submitGenerate env st = (st, SubmitOutcome.busy) := by
  simp [submitGenerate, hbusy]

/-- Witness for C7: a concrete busy state rejects a concrete submission
unchanged. -/
theorem submitGenerate_busy_rejected_witness :
    submitGenerate envWarn egStateBusy = (egStateBusy, SubmitOutcome.busy) :=
  submitGenerate_busy_rejected envWarn egStateBusy rfl

/-! ## C9: exactly one visualization retry -/

/-- C9: when the resolution step yields no visualization data, the request
is still driven to 100% progress (marked complete) and exactly one retry of
the resolution step is scheduled after a 1000 ms delay — never zero and
never more than one; a successful first resolution performs zero
retries. -/
theorem visualizationStage_retries_exactly_once
    (retryResult : Option AudioData) (b : AudioData) :
    visualizationStage none retryResult =
      ⟨100, retryResult, 1, 1000⟩ ∧
    visualizationStage (some b) retryResult = ⟨100, some b, 0, 0⟩ := by
  cases retryResult <;> exact ⟨rfl, rfl⟩

/-! ## C10: totality of the resolution fallback chain -/

/-- C10: whenever the fallible fetch-and-decode body of `fetchAudioBuffer`
throws (both retrieval paths failed, an empty body, or a decode failure),
the error is caught rather than propagated and the caller still receives
sample data — one of the two synthetic placeholders; in particular when the
existence probe also fails, the result is the last-resort 3-second 220 Hz
sine placeholder (3 seconds at 24000 Hz = 72000 samples). -/
theorem fetchAudioBuffer_total (env : FetchEnv) (c : AudioCache)
    (url : String) (e : FetchError)
    (hmiss : cacheLookup c url = none)
    (herr : fetchAttempt env = .error e) :
    ((fetchAudioBuffer env c url).data = .placeholder 440 5 ∨
      (fetchAudioBuffer env c url).data = .placeholder 220 3) ∧
    (env.headOk = false →
      (fetchAudioBuffer env c url).data = .placeholder 220 3 ∧
      sampleCount (fetchAudioBuffer env c url).data = 24000 * 3) := by
  unfold fetchAudioBuffer
  rw [hmiss, herr]
  by_cases hh : env.headOk <;> simp [hh, sampleCount]

/-- Witness for C10: with everything failing — no direct fetch, no proxy
fetch, no existence probe, empty cache — the result is the 72000-sample
220 Hz placeholder. -/
theorem fetchAudioBuffer_total_witness :
    ((fetchAudioBuffer envAllFail [] "u").data = .placeholder 440 5 ∨
      (fetchAudioBuffer envAllFail [] "u").data = .placeholder 220 3) ∧
    (envAllFail.headOk = false →
      (fetchAudioBuffer envAllFail [] "u").data = .placeholder 220 3 ∧
      sampleCount (fetchAudioBuffer envAllFail [] "u").data = 24000 * 3) :=
  fetchAudioBuffer_total envAllFail [] "u" .bothPathsFailed rfl rfl

/-! ## C4: idempotence of resolution -/

/-- C4 counterexample: the last-resort placeholder is not cached, so two
calls of `fetchAudioBuffer` on the same reference are NOT always
bit-identical.  A first call under a failing environment returns the
220 Hz placeholder without caching it; a second call on the same reference,
once retrieval has started succeeding, returns the real decoded data
instead. -/
theorem fetchAudioBuffer_not_idempotent_counterexample :
    (fetchAudioBuffer envAllFail [] "u").data = .placeholder 220 3 ∧
    (fetchAudioBuffer envGood (fetchAudioBuffer envAllFail [] "u").cache "u").data
      = .decoded [7] ∧
    (fetchAudioBuffer envGood (fetchAudioBuffer envAllFail [] "u").cache "u").data
      ≠ (fetchAudioBuffer envAllFail [] "u").data := by
  exact ⟨rfl, rfl, by decide⟩

/-- C4 (amended): `fetchAudioBuffer` is idempotent under an unchanged
environment (the same reference yields bit-identical data, placeholders
included, since both placeholder generators are deterministic), and is
idempotent under ANY later environment whenever the first call left the
reference cached — i.e. whenever its result was a cache hit, a successful
decode, or the existence-probe placeholder.  Only an uncached last-resort
placeholder may differ on re-resolution. -/
theorem fetchAudioBuffer_idempotent_amended (env : FetchEnv) (c : AudioCache)
    (url : String) :
    (fetchAudioBuffer env (fetchAudioBuffer env c url).cache url).data
      = (fetchAudioBuffer env c url).data ∧
    (∀ env2 d, cacheLookup (fetchAudioBuffer env c url).cache url = some d →
      (fetchAudioBuffer env2 (fetchAudioBuffer env c url).cache url).data
        = (fetchAudioBuffer env c url).data) := by
  cases hc : cacheLookup c url with
  | some d0 =>
    constructor
    · simp [fetchAudioBuffer, hc]
    · intro env2 d hd
      simp [fetchAudioBuffer, hc] at hd ⊢
  | none =>
    cases ha : fetchAttempt env with
    | ok ch =>
      constructor
      · simp [fetchAudioBuffer, hc, ha, cacheLookup]
      · intro env2 d hd
        simp [fetchAudioBuffer, hc, ha, cacheLookup] at hd ⊢
    | error e =>
      by_cases hh : env.headOk
      · constructor
        · simp [fetchAudioBuffer, hc, ha, hh, cacheLookup]
        · intro env2 d hd
          simp [fetchAudioBuffer, hc, ha, hh, cacheLookup] at hd ⊢
      · constructor
        · simp [fetchAudioBuffer, hc, ha, hh]
        · intro env2 d hd
          simp [fetchAudioBuffer, hc, ha, hh] at hd

/-- Witness for C4 (amended): after a successful decode of `"u"`, a repeat
call under the same environment and a repeat call under a fully failing
environment both return the same decoded data. -/
theorem fetchAudioBuffer_idempotent_amended_witness :
    (fetchAudioBuffer envGood (fetchAudioBuffer envGood [] "u").cache "u").data
      = (fetchAudioBuffer envGood [] "u").data ∧
    (fetchAudioBuffer envAllFail (fetchAudioBuffer envGood [] "u").cache "u").data
      = (fetchAudioBuffer envGood [] "u").data :=
  ⟨(fetchAudioBuffer_idempotent_amended envGood [] "u").1,
   (fetchAudioBuffer_idempotent_amended envGood [] "u").2 envAllFail
     (.decoded [7]) (by decide)⟩

/-! ## C5: what the resolution step caches -/

/-- C5 counterexample: the unreachable-artifact (last-resort) placeholder is
NOT stored in the cache.  After a call in which retrieval and the existence
probe all fail, the cache still has no entry for the reference, and a
subsequent call performs I/O again instead of hitting the cache. -/
theorem last_resort_placeholder_not_cached :
    fetchAudioBuffer envAllFail [] "u"
      = ⟨AudioData.placeholder 220 3, [], true⟩ ∧
    cacheLookup (fetchAudioBuffer envAllFail [] "u").cache "u" = none ∧
    (fetchAudioBuffer envAllFail
        (fetchAudioBuffer envAllFail [] "u").cache "u").didIo = true := by
  exact ⟨rfl, rfl, rfl⟩

/-- C5 (amended): on a cache miss, a successful decode and the
existence-probe placeholder are stored in the cache under the reference, so
a subsequent call is a pure cache hit performing no I/O and returning the
same data; the last-resort placeholder, by contrast, leaves the cache
without an entry for the reference. -/
theorem fetchAudioBuffer_cache_policy_amended (env env2 : FetchEnv)
    (c : AudioCache) (url : String)
    (hmiss : cacheLookup c url = none) :
    ((fetchAudioBuffer env c url).data ≠ AudioData.placeholder 220 3 →
      cacheLookup (fetchAudioBuffer env c url).cache url
        = some (fetchAudioBuffer env c url).data ∧
      fetchAudioBuffer env2 (fetchAudioBuffer env c url).cache url
        = ⟨(fetchAudioBuffer env c url).data,
            (fetchAudioBuffer env c url).cache, false⟩) ∧
    ((fetchAudioBuffer env c url).data = AudioData.placeholder 220 3 →
      cacheLookup (fetchAudioBuffer env c url).cache url = none ∧
      (fetchAudioBuffer env2 (fetchAudioBuffer env c url).cache url).didIo
        = true) := by
  cases ha : fetchAttempt env with
  | ok ch =>
    constructor
    · intro _
      constructor
      · simp [fetchAudioBuffer, hmiss, ha, cacheLookup]
      · simp [fetchAudioBuffer, hmiss, ha, cacheLookup]
    · intro hcontra
      simp [fetchAudioBuffer, hmiss, ha] at hcontra
  | error e =>
    by_cases hh : env.headOk
    · constructor
      · intro _
        constructor
        · simp [fetchAudioBuffer, hmiss, ha, hh, cacheLookup]
        · simp [fetchAudioBuffer, hmiss, ha, hh, cacheLookup]
      · intro hcontra
        simp [fetchAudioBuffer, hmiss, ha, hh] at hcontra
    · constructor
      · intro hcontra
        simp [fetchAudioBuffer, hmiss, ha, hh] at hcontra
      · intro _
        constructor
        · simp [fetchAudioBuffer, hmiss, ha, hh]
        · cases ha2 : fetchAttempt env2 with
          | ok ch2 => simp [fetchAudioBuffer, hmiss, ha, hh, ha2]
          | error e2 =>
            by_cases hh2 : env2.headOk <;>
              simp [fetchAudioBuffer, hmiss, ha, hh, ha2, hh2]

/-- Witness for C5 (amended): after a successful decode of `"u"` into an
empty cache, the cache holds the decoded data under `"u"`, and a second
call — even under a fully failing environment — is a no-I/O cache hit
returning it. -/
theorem fetchAudioBuffer_cache_policy_amended_witness :
    cacheLookup (fetchAudioBuffer envGood [] "u").cache "u"
      = some (fetchAudioBuffer envGood [] "u").data ∧
    fetchAudioBuffer envAllFail (fetchAudioBuffer envGood [] "u").cache "u"
      = ⟨(fetchAudioBuffer envGood [] "u").data,
          (fetchAudioBuffer envGood [] "u").cache, false⟩ :=
  (fetchAudioBuffer_cache_policy_amended envGood envAllFail [] "u" rfl).1
    (by decide)

/-- A missing or empty output artifact makes the `/api/generate` handler
answer with a non-ok status, whatever the exit status of the backend. -/
theorem generateHandler_bad_artifact (run : BackendRun) (text : String)
    (ht : text ≠ "")
    (hbad : run.artifact = none ∨ run.artifact = some []) :
    ∃ msg, generateHandler run text = .error msg := by
  rcases hbad with hb | hb
  · cases hx : run.exitOk
    · exact ⟨"Failed to generate audio", by simp [generateHandler, ht, hb, hx]⟩
    · exact ⟨"Output file was not created", by simp [generateHandler, ht, hb, hx]⟩
  · cases hx : run.exitOk
    · exact ⟨"Failed to generate audio", by simp [generateHandler, ht, hb, hx]⟩
    · exact ⟨"Generated audio file is empty", by simp [generateHandler, ht, hb, hx]⟩

/-! ## C2: artifact validation -/

/-- C2 counterexample: a cleanly exiting backend run whose artifact exists
and is non-empty but does NOT begin with the `RIFF`/`WAVE` container
signature (`isValidWav = some false`) is not fatal: `generateSpeech`
completes (even without the could-not-be-validated notification, since the
file exists and is readable — the signature field is never consulted) and
the active context still gains the new segment, contradicting the claimed
`ArtifactInvalidError` failure with no segment appended. -/
theorem invalid_signature_still_appends :
    checkAudioHandler envBadWav.backend.artifact = ⟨true, true, some false⟩ ∧
    (generateSpeech envBadWav egState).2 = GenOutcome.completed false false ∧
    (generateSpeech envBadWav egState).1.contexts
      = [⟨"A", [⟨0, "Hello there", none, some "/audio/bad1.wav"⟩]⟩] := by
  exact ⟨by decide, by decide, by decide⟩

/-- C2 (amended): if the produced artifact is missing or empty, the request
fails — the server answers non-ok, the client lands in its catch branch —
and no segment is appended to any context, even when the backend exited
cleanly; the container-signature check, by contrast, is advisory only: its
verdict is reported but neither fails the request nor prevents the segment
append (see the counterexample). -/
theorem generate_missing_or_empty_artifact_fails (env : GenEnv)
    (st : AppState)
    (htext : jsTrim st.inputText ≠ "")
    (hbad : env.backend.artifact = none ∨ env.backend.artifact = some []) :
    (generateSpeech env st).1.contexts = st.contexts ∧
    (generateSpeech env st).1.activeContext = st.activeContext ∧
    ∃ msg, (generateSpeech env st).2 = GenOutcome.requestFailed msg := by
  obtain ⟨msg, hmsg⟩ :=
    generateHandler_bad_artifact env.backend st.inputText
      (ne_empty_of_trim_ne_empty htext) hbad
  refine ⟨?_, ?_, msg, ?_⟩ <;> simp [generateSpeech, htext, hmsg]

/-- Witness for C2 (amended): a concrete clean-exit run with no output file
leaves the concrete state's contexts and active pointer unchanged and ends
in the catch branch. -/
theorem generate_missing_artifact_witness :
    (generateSpeech envMissing egState).1.contexts = egState.contexts ∧
    (generateSpeech envMissing egState).1.activeContext
      = egState.activeContext ∧
    ∃ msg, (generateSpeech envMissing egState).2
      = GenOutcome.requestFailed msg :=
  generate_missing_or_empty_artifact_fails envMissing egState (by decide)
    (Or.inl rfl)

/-! ## C3: backend error but usable artifact is success-with-warnings -/

/-- C3: when the backend exits non-zero but the output artifact exists with
size greater than zero, the request is treated as success-with-warnings:
the server returns the artifact URL with warnings attached (the `stderr`
diagnostics whenever they are non-empty), the client completes with the
warnings notification, and every stored context bearing the active
context's name gains the new segment `{speaker, text, audioPath: url}`. -/
theorem backend_error_with_artifact_succeeds (env : GenEnv) (st : AppState)
    (active : ContextFile) (bytes : List Nat)
    (htext : jsTrim st.inputText ≠ "")
    (hexit : env.backend.exitOk = false)
    (hart : env.backend.artifact = some bytes)
    (hnz : bytes ≠ [])
    (hactive : st.activeContext = some active) :
    (generateSpeech env st).2 = GenOutcome.completed true false ∧
    (generateSpeech env st).1.contexts
      = appendSegmentTo active.name
          ⟨st.selectedSpeaker, st.inputText, none,
            some ("/audio/" ++ env.backend.audioId ++ ".wav")⟩ st.contexts ∧
    (env.backend.stderr ≠ "" →
      generateHandler env.backend st.inputText
        = ApiResponse.ok ("/audio/" ++ env.backend.audioId ++ ".wav")
            (some env.backend.stderr)) := by
  have ht : st.inputText ≠ "" := ne_empty_of_trim_ne_empty htext
  have hlen : 0 < bytes.length := List.length_pos.mpr hnz
  have hgen : generateHandler env.backend st.inputText
      = ApiResponse.ok ("/audio/" ++ env.backend.audioId ++ ".wav")
          (some (if env.backend.stderr = "" then genericWarning
            else env.backend.stderr)) := by
    simp [generateHandler, ht, hexit, hart, hlen]
  have hreadable : (0 : Nat) < min 44 bytes.length :=
    lt_min (by norm_num) hlen
  refine ⟨?_, ?_, ?_⟩
  · simp [generateSpeech, htext, hgen, checkAudioHandler, hart, hactive,
      hreadable]
  · simp [generateSpeech, htext, hgen, hactive]
  · intro hs
    rw [hgen, if_neg hs]

/-- Witness for C3: the concrete run `backendWarn` (non-zero exit, `"boom"`
on stderr, 4-byte artifact) completes with warnings, appends the segment to
context `"A"`, and the server response carries `"boom"` as its warning. -/
theorem backend_error_with_artifact_witness :
    (generateSpeech envWarn egState).2 = GenOutcome.completed true false ∧
    generateHandler envWarn.backend egState.inputText
      = ApiResponse.ok "/audio/abc123.wav" (some "boom") ∧
    (generateSpeech envWarn egState).1.contexts
      = appendSegmentTo "A"
          ⟨0, "Hello there", none, some "/audio/abc123.wav"⟩ [egContext] :=
  ⟨(backend_error_with_artifact_succeeds envWarn egState egContext riffMagic
      (by decide) rfl rfl (by decide) rfl).1,
   (backend_error_with_artifact_succeeds envWarn egState egContext riffMagic
      (by decide) rfl rfl (by decide) rfl).2.2 (by decide),
   (backend_error_with_artifact_succeeds envWarn egState egContext riffMagic
      (by decide) rfl rfl (by decide) rfl).2.1⟩

/-! ## C8: proxied retrieval path sanitization -/

/-- C8 counterexample: the basename of the input `".."` is `".."` itself — a
parent-directory segment that `path.join` honours — so the resolved path is
the PARENT of the audio directory: the resolved file path can escape the
artifact directory (it names a directory, not a servable file, but the
claimed "never escapes" is false as stated). -/
theorem dotdot_escapes_audio_dir :
    basename ".." = ".." ∧
    resolveProxyPath ["root"] ".." = ["root", "public"] ∧
    withinAudioDir ["root"] (resolveProxyPath ["root"] "..") = false := by
  exact ⟨rfl, rfl, rfl⟩

/-- C8 (amended): only the final path segment of the filename input is used
— the basename never contains a separator — and for every input whose
basename is not `""`, `"."` or `".."` the resolved path is exactly the
basename inside the audio directory; in particular `"../../etc/passwd"`
resolves to the basename `"passwd"` inside the audio directory.  The sole
exceptions are the basenames `""`, `"."` (the audio directory itself) and
`".."` (its parent, a directory — see the counterexample). -/
theorem proxy_resolves_basename_in_audio_dir (projRoot : List String)
    (filename : String) :
    (∀ ch ∈ (basename filename).data, ch ≠ '/') ∧
    (basename filename ≠ "" → basename filename ≠ "." →
      basename filename ≠ ".." →
      resolveProxyPath projRoot filename
        = audioDirSegs projRoot ++ [basename filename] ∧
      withinAudioDir projRoot (resolveProxyPath projRoot filename) = true) ∧
    resolveProxyPath projRoot "../../etc/passwd"
      = audioDirSegs projRoot ++ ["passwd"] := by
  refine ⟨?_, ?_, ?_⟩
  · intro ch hch
    have hmem : ch ∈ (((filename.data.reverse.dropWhile
        (fun c => c == '/')).takeWhile (fun c => c != '/')).reverse) := hch
    rw [List.mem_reverse] at hmem
    have := List.mem_takeWhile_imp hmem
    simpa using this
  · intro h1 h2 h3
    have hres : resolveProxyPath projRoot filename
        = audioDirSegs projRoot ++ [basename filename] := by
      unfold resolveProxyPath joinSegment
      rw [if_neg, if_neg h3]
      rintro (h | h)
      · exact h1 h
      · exact h2 h
    refine ⟨hres, ?_⟩
    rw [hres]
    unfold withinAudioDir
    rw [List.take_left]
    simp
  · have hb : basename "../../etc/passwd" = "passwd" := by decide
    unfold resolveProxyPath joinSegment
    rw [hb, if_neg (by decide), if_neg (by decide)]

/-- Witness for C8 (amended): concrete resolutions — the traversal attempt
`"../../etc/passwd"` lands on `passwd` inside the audio directory, an
ordinary filename lands inside the audio directory, and basename characters
are never separators. -/
theorem proxy_resolves_basename_witness :
    resolveProxyPath ["root"] "../../etc/passwd"
      = audioDirSegs ["root"] ++ ["passwd"] ∧
    resolveProxyPath ["root"] "abc.wav"
      = audioDirSegs ["root"] ++ ["abc.wav"] ∧
    ('p' ∈ (basename "../../etc/passwd").data → 'p' ≠ '/') :=
  ⟨(proxy_resolves_basename_in_audio_dir ["root"] "../../etc/passwd").2.2,
   ((proxy_resolves_basename_in_audio_dir ["root"] "abc.wav").2.1
      (by decide) (by decide) (by decide)).1,
   fun h => (proxy_resolves_basename_in_audio_dir ["root"]
      "../../etc/passwd").1 'p' h⟩

end CsmUi
